import Mathlib

/-!
Verification development for the constexpr_t repository: two header-only C++
variants of a compile-time value wrapper
(src/include/constexpr_wrapper.hpp, variant B, and src/include/constexpr_t.hpp,
variant A), plus the literal front end of constexpr_wrapper.hpp.

The wrapper type constexpr_wrapper<X, T> is a zero-sized C++ class whose
identity carries the compile-time value X of declared value type T.  We embed
it shallowly as a fieldless Lean structure indexed by the declared value type
and by the value itself; the static data member value and the implicit
conversion operator value_type both produce the template argument X, and every
operator overload produces the wrapper instance of the native result.  The
operator overloads of the source are one-liner templates, generic in the
operand types; they are embedded one definition per overload, generic over the
corresponding Lean operation classes.
-/

/-- Variant B wrapper (src/include/constexpr_wrapper.hpp lines 53-60):
template parameters are the value X and the declared value type T (defaulted
to the unqualified type of X).  The C++ class is empty; its whole content is
its type identity, so the embedding is a fieldless structure indexed by both
template arguments. -/
structure constexpr_wrapper (α : Type) (x : α) : Type where

/-- Variant A wrapper (src/include/constexpr_t.hpp lines 45-52): a single
value template parameter; the value type is deduced from the value.  The type
index alpha records that deduced type. -/
structure constexpr_t (α : Type) (x : α) : Type where

/-- The variable template cw (constexpr_wrapper.hpp lines 356-358): the
canonical instance of the wrapper for a given compile-time value. -/
def cw {α : Type} (x : α) : constexpr_wrapper α x := ⟨⟩

/-- The variable template cc (constexpr_t.hpp lines 330-332). -/
def cc {α : Type} (x : α) : constexpr_t α x := ⟨⟩

/-- The static data member value (constexpr_wrapper.hpp line 60), accessed
through an object of the wrapper type: it is the template argument X. -/
def constexpr_wrapper.value {α : Type} {x : α} (_ : constexpr_wrapper α x) : α := x

/-- The implicit conversion operator value_type (constexpr_wrapper.hpp lines
62-64): returns the template argument X. -/
def constexpr_wrapper.toValueType {α : Type} {x : α} (_ : constexpr_wrapper α x) : α := x

/-- The static data member value of variant A (constexpr_t.hpp line 52). -/
def constexpr_t.value {α : Type} {x : α} (_ : constexpr_t α x) : α := x

/-- The implicit conversion operator value_type of variant A (constexpr_t.hpp
lines 54-56). -/
def constexpr_t.toValueType {α : Type} {x : α} (_ : constexpr_t α x) : α := x

/-! ## Pointer and member-access model

C++ pointers to objects are modelled by a one-field structure carrying the
pointee; the built-in address-of, dereference and pointer-to-member operators
become the evident functions.  This models the case in which the wrapped value
is a class-type template parameter object (whose address is a valid
compile-time constant); for scalar template parameters the address-of
expression inside the overload is ill-formed and the overload does not
instantiate, which is outside the value-level claims checked here. -/

/-- A C++ object pointer, modelled by its pointee. -/
structure CppPtr (σ : Type) : Type where
  deref : σ

/-- The built-in address-of operation (std::addressof on the stored value). -/
def cppAddressof {σ : Type} (x : σ) : CppPtr σ := ⟨x⟩

/-- The built-in dereference operation. -/
def cppDeref {σ : Type} (p : CppPtr σ) : σ := p.deref

/-- The built-in pointer-to-member access p ->* m: dereference and project.
A pointer to member of sigma with member type mu is modelled as a projection
function. -/
def cppArrowStar {σ μ : Type} (p : CppPtr σ) (m : σ → μ) : μ := m p.deref

/-- C++ unary plus applied to an already promoted scalar value is the
identity on the value. -/
def cppUnaryPlus {α : Type} (x : α) : α := x

/-! ## Mutating operators

The unary increment/decrement overloads (constexpr_wrapper.hpp lines 121-139)
and the compound-assignment friends (lines 251-299) apply the native operator
to the constant stored entity (the template parameter object _Yp, or the
static constant _Ap::value).  For scalar values that expression is ill-formed
(no assignment to a constant), so those overloads only instantiate for class
types whose increment/decrement/compound-assignment operators are
const-qualified, such as the Aaaargh type of src/test.cpp.  MutOps models such
a class type: each field records the value the corresponding const-qualified
operator returns (taking the right operand where the operator is binary). -/

structure MutOps (π ρ : Type) : Type where
  preInc : ρ
  postInc : ρ
  preDec : ρ
  postDec : ρ
  addAssign : π → ρ
  subAssign : π → ρ
  mulAssign : π → ρ
  divAssign : π → ρ
  modAssign : π → ρ
  andAssign : π → ρ
  orAssign : π → ρ
  xorAssign : π → ρ
  shlAssign : π → ρ
  shrAssign : π → ρ

/-! ## Unary operator overloads (constexpr_wrapper.hpp lines 91-139)

Each overload returns the wrapper instance of the native result of the
operator applied to the stored value. -/

/-- operator+ (lines 91-94). -/
def cwPos {α : Type} {x : α} (_ : constexpr_wrapper α x) :
    constexpr_wrapper α (cppUnaryPlus x) := ⟨⟩

/-- operator- (lines 96-99). -/
def cwNeg {α : Type} [Neg α] {x : α} (_ : constexpr_wrapper α x) :
    constexpr_wrapper α (-x) := ⟨⟩

/-- operator~ (lines 101-104). -/
def cwCompl {α : Type} [Complement α] {x : α} (_ : constexpr_wrapper α x) :
    constexpr_wrapper α (~~~x) := ⟨⟩

/-- operator! (lines 106-109); the operand converts to bool. -/
def cwLnot {x : Bool} (_ : constexpr_wrapper Bool x) :
    constexpr_wrapper Bool (!x) := ⟨⟩

/-- operator& (lines 111-114): wraps the address of the stored constant. -/
def cwAddrOf {σ : Type} {x : σ} (_ : constexpr_wrapper σ x) :
    constexpr_wrapper (CppPtr σ) (cppAddressof x) := ⟨⟩

/-- operator* (lines 116-119): wraps the dereferenced stored pointer. -/
def cwDeref {σ : Type} {p : CppPtr σ} (_ : constexpr_wrapper (CppPtr σ) p) :
    constexpr_wrapper σ (cppDeref p) := ⟨⟩

/-- prefix operator++ (lines 121-124): wraps the value of ++value, i.e. the
result of the const-qualified increment of the stored class-type value. -/
def cwPreInc {π ρ : Type} {v : MutOps π ρ} (_ : constexpr_wrapper (MutOps π ρ) v) :
    constexpr_wrapper ρ v.preInc := ⟨⟩

/-- postfix operator++ (lines 126-129). -/
def cwPostInc {π ρ : Type} {v : MutOps π ρ} (_ : constexpr_wrapper (MutOps π ρ) v) :
    constexpr_wrapper ρ v.postInc := ⟨⟩

/-- prefix operator-- (lines 131-134). -/
def cwPreDec {π ρ : Type} {v : MutOps π ρ} (_ : constexpr_wrapper (MutOps π ρ) v) :
    constexpr_wrapper ρ v.preDec := ⟨⟩

/-- postfix operator-- (lines 136-139). -/
def cwPostDec {π ρ : Type} {v : MutOps π ρ} (_ : constexpr_wrapper (MutOps π ρ) v) :
    constexpr_wrapper ρ v.postDec := ⟨⟩

/-! ## Binary operator friends (constexpr_wrapper.hpp lines 141-244)

One definition per overload, mirroring the one-overload-per-operator table.
Each is generic in the operand value types just as the C++ friend template is,
and returns the wrapper instance of the native result A::value op B::value. -/

/-- friend operator+ (lines 141-144). -/
def cwAdd {α β γ : Type} [HAdd α β γ] {x : α} {y : β}
    (_ : constexpr_wrapper α x) (_ : constexpr_wrapper β y) :
    constexpr_wrapper γ (x + y) := ⟨⟩

/-- friend operator- (lines 146-149). -/
def cwSub {α β γ : Type} [HSub α β γ] {x : α} {y : β}
    (_ : constexpr_wrapper α x) (_ : constexpr_wrapper β y) :
    constexpr_wrapper γ (x - y) := ⟨⟩

/-- friend operator* (lines 151-154). -/
def cwMul {α β γ : Type} [HMul α β γ] {x : α} {y : β}
    (_ : constexpr_wrapper α x) (_ : constexpr_wrapper β y) :
    constexpr_wrapper γ (x * y) := ⟨⟩

/-- friend operator/ (lines 156-159). -/
def cwDiv {α β γ : Type} [HDiv α β γ] {x : α} {y : β}
    (_ : constexpr_wrapper α x) (_ : constexpr_wrapper β y) :
    constexpr_wrapper γ (x / y) := ⟨⟩

/-- friend operator% (lines 161-164). -/
def cwMod {α β γ : Type} [HMod α β γ] {x : α} {y : β}
    (_ : constexpr_wrapper α x) (_ : constexpr_wrapper β y) :
    constexpr_wrapper γ (x % y) := ⟨⟩

/-- friend operator& (lines 166-169). -/
def cwBand {α β γ : Type} [HAnd α β γ] {x : α} {y : β}
    (_ : constexpr_wrapper α x) (_ : constexpr_wrapper β y) :
    constexpr_wrapper γ (x &&& y) := ⟨⟩

/-- friend operator| (lines 171-174). -/
def cwBor {α β γ : Type} [HOr α β γ] {x : α} {y : β}
    (_ : constexpr_wrapper α x) (_ : constexpr_wrapper β y) :
    constexpr_wrapper γ (x ||| y) := ⟨⟩

/-- friend operator^ (lines 176-179). -/
def cwBxor {α β γ : Type} [HXor α β γ] {x : α} {y : β}
    (_ : constexpr_wrapper α x) (_ : constexpr_wrapper β y) :
    constexpr_wrapper γ (x ^^^ y) := ⟨⟩

/-- friend operator&& (lines 181-184); operands of type bool. -/
def cwLand {p q : Bool} (_ : constexpr_wrapper Bool p) (_ : constexpr_wrapper Bool q) :
    constexpr_wrapper Bool (p && q) := ⟨⟩

/-- friend operator|| (lines 186-189). -/
def cwLor {p q : Bool} (_ : constexpr_wrapper Bool p) (_ : constexpr_wrapper Bool q) :
    constexpr_wrapper Bool (p || q) := ⟨⟩

/-- The native comma operator: evaluates both operands, value of the second. -/
def cppComma {α β : Type} (_ : α) (y : β) : β := y

/-- friend operator, (lines 191-194). -/
def cwComma {α β : Type} {x : α} {y : β}
    (_ : constexpr_wrapper α x) (_ : constexpr_wrapper β y) :
    constexpr_wrapper β (cppComma x y) := ⟨⟩

/-- friend operator<< (lines 196-199). -/
def cwShl {α β γ : Type} [HShiftLeft α β γ] {x : α} {y : β}
    (_ : constexpr_wrapper α x) (_ : constexpr_wrapper β y) :
    constexpr_wrapper γ (x <<< y) := ⟨⟩

/-- friend operator>> (lines 201-204). -/
def cwShr {α β γ : Type} [HShiftRight α β γ] {x : α} {y : β}
    (_ : constexpr_wrapper α x) (_ : constexpr_wrapper β y) :
    constexpr_wrapper γ (x >>> y) := ⟨⟩

/-- friend operator== (lines 206-209); the native comparison yields bool. -/
def cwEq {δ : Type} [BEq δ] {u v : δ}
    (_ : constexpr_wrapper δ u) (_ : constexpr_wrapper δ v) :
    constexpr_wrapper Bool (u == v) := ⟨⟩

/-- friend operator!= (lines 211-214). -/
def cwNe {δ : Type} [BEq δ] {u v : δ}
    (_ : constexpr_wrapper δ u) (_ : constexpr_wrapper δ v) :
    constexpr_wrapper Bool (u != v) := ⟨⟩

/-- friend operator< (lines 216-219). -/
def cwLt {δ : Type} [LT δ] [DecidableRel (α := δ) (· < ·)] {u v : δ}
    (_ : constexpr_wrapper δ u) (_ : constexpr_wrapper δ v) :
    constexpr_wrapper Bool (decide (u < v)) := ⟨⟩

/-- friend operator<= (lines 221-224). -/
def cwLe {δ : Type} [LE δ] [DecidableRel (α := δ) (· ≤ ·)] {u v : δ}
    (_ : constexpr_wrapper δ u) (_ : constexpr_wrapper δ v) :
    constexpr_wrapper Bool (decide (u ≤ v)) := ⟨⟩

/-- friend operator> (lines 226-229); on scalar operands a > b holds exactly
when b < a. -/
def cwGt {δ : Type} [LT δ] [DecidableRel (α := δ) (· < ·)] {u v : δ}
    (_ : constexpr_wrapper δ u) (_ : constexpr_wrapper δ v) :
    constexpr_wrapper Bool (decide (v < u)) := ⟨⟩

/-- friend operator>= (lines 231-234). -/
def cwGe {δ : Type} [LE δ] [DecidableRel (α := δ) (· ≤ ·)] {u v : δ}
    (_ : constexpr_wrapper δ u) (_ : constexpr_wrapper δ v) :
    constexpr_wrapper Bool (decide (v ≤ u)) := ⟨⟩

/-- friend operator->* (lines 241-244): built-in pointer-to-member access on a
wrapped object pointer and a wrapped pointer to member. -/
def cwArrowStar {σ μ : Type} {p : CppPtr σ} {m : σ → μ}
    (_ : constexpr_wrapper (CppPtr σ) p) (_ : constexpr_wrapper (σ → μ) m) :
    constexpr_wrapper μ (cppArrowStar p m) := ⟨⟩

/-! ## Compound-assignment friends (constexpr_wrapper.hpp lines 251-299)

Each applies a compound assignment to the constant A::value, so it
instantiates only for class-type values with const-qualified operators
(see MutOps above); the result wraps the value that operator returns. -/

/-- friend operator+= (lines 251-254). -/
def cwAddAssign {π ρ : Type} {v : MutOps π ρ} {y : π}
    (_ : constexpr_wrapper (MutOps π ρ) v) (_ : constexpr_wrapper π y) :
    constexpr_wrapper ρ (v.addAssign y) := ⟨⟩

/-- friend operator-= (lines 256-259). -/
def cwSubAssign {π ρ : Type} {v : MutOps π ρ} {y : π}
    (_ : constexpr_wrapper (MutOps π ρ) v) (_ : constexpr_wrapper π y) :
    constexpr_wrapper ρ (v.subAssign y) := ⟨⟩

/-- friend operator*= (lines 261-264). -/
def cwMulAssign {π ρ : Type} {v : MutOps π ρ} {y : π}
    (_ : constexpr_wrapper (MutOps π ρ) v) (_ : constexpr_wrapper π y) :
    constexpr_wrapper ρ (v.mulAssign y) := ⟨⟩

/-- friend operator/= (lines 266-269). -/
def cwDivAssign {π ρ : Type} {v : MutOps π ρ} {y : π}
    (_ : constexpr_wrapper (MutOps π ρ) v) (_ : constexpr_wrapper π y) :
    constexpr_wrapper ρ (v.divAssign y) := ⟨⟩

/-- friend operator%= (lines 271-274). -/
def cwModAssign {π ρ : Type} {v : MutOps π ρ} {y : π}
    (_ : constexpr_wrapper (MutOps π ρ) v) (_ : constexpr_wrapper π y) :
    constexpr_wrapper ρ (v.modAssign y) := ⟨⟩

/-- friend operator&= (lines 276-279). -/
def cwAndAssign {π ρ : Type} {v : MutOps π ρ} {y : π}
    (_ : constexpr_wrapper (MutOps π ρ) v) (_ : constexpr_wrapper π y) :
    constexpr_wrapper ρ (v.andAssign y) := ⟨⟩

/-- friend operator|= (lines 281-284). -/
def cwOrAssign {π ρ : Type} {v : MutOps π ρ} {y : π}
    (_ : constexpr_wrapper (MutOps π ρ) v) (_ : constexpr_wrapper π y) :
    constexpr_wrapper ρ (v.orAssign y) := ⟨⟩

/-- friend operator^= (lines 286-289). -/
def cwXorAssign {π ρ : Type} {v : MutOps π ρ} {y : π}
    (_ : constexpr_wrapper (MutOps π ρ) v) (_ : constexpr_wrapper π y) :
    constexpr_wrapper ρ (v.xorAssign y) := ⟨⟩

/-- friend operator<<= (lines 291-294). -/
def cwShlAssign {π ρ : Type} {v : MutOps π ρ} {y : π}
    (_ : constexpr_wrapper (MutOps π ρ) v) (_ : constexpr_wrapper π y) :
    constexpr_wrapper ρ (v.shlAssign y) := ⟨⟩

/-- friend operator>>= (lines 296-299). -/
def cwShrAssign {π ρ : Type} {v : MutOps π ρ} {y : π}
    (_ : constexpr_wrapper (MutOps π ρ) v) (_ : constexpr_wrapper π y) :
    constexpr_wrapper ρ (v.shrAssign y) := ⟨⟩

/-! ## Three-way comparison

The friend operator<=> (constexpr_wrapper.hpp lines 236-239) wraps the value
A::value <=> B::value.  Wrapping requires that value to be usable as a
template argument, i.e. its type must be structural.  For scalar operands the
native result type is std::strong_ordering, which is not a structural type
(src/test.cpp lines 219-221 document the resulting diagnostic), so the
substitution into the return type fails, the overload drops out of the
candidate set, and the built-in three-way comparison applies to the implicitly
converted operands, producing a plain unwrapped std::strong_ordering value.
Ordering models std::strong_ordering. -/

/-- Whether std::strong_ordering is a structural type (usable as a non-type
template argument).  It is not: it has a private data member; the repository
itself records the diagnostic in src/test.cpp lines 219-221. -/
def strongOrderingIsStructural : Bool := false

/-- Whether the operator<=> friend of constexpr_wrapper instantiates for
wrapped scalar operands: it does exactly when the native result type
std::strong_ordering is structural, since the return type
constexpr_wrapper of the comparison value must be a valid type. -/
def cwSpaceshipScalarViable : Bool := strongOrderingIsStructural

/-- The expression wrappedX <=> wrappedY for scalar (here Int) operands after
the friend overload has dropped out: the built-in three-way comparison of the
implicitly converted operands, a plain unwrapped value. -/
def cwSpaceshipScalarFallback {x y : Int}
    (a : constexpr_wrapper Int x) (b : constexpr_wrapper Int y) : Ordering :=
  compare a.toValueType b.toValueType

/-! ## Call and subscript (constexpr_wrapper.hpp lines 309-350)

Subscriptable values are modelled by a one-field structure carrying the
indexing map; callable values are modelled as Lean functions. -/

/-- A C++ value with a subscript operator, modelled by its indexing map. -/
structure CppIndexable (ι γ : Type) : Type where
  elem : ι → γ

/-- operator() for a pack of compile-time arguments (lines 310-314), shown for
one argument: wraps value(arg.value) when that is a valid constant expression
of eligible type (always so in the model). -/
def cwCallCV {β γ : Type} {f : β → γ} {y : β}
    (_ : constexpr_wrapper (β → γ) f) (_ : constexpr_wrapper β y) :
    constexpr_wrapper γ (f y) := ⟨⟩

/-- operator() for arguments at least one of which is not a compile-time value
(lines 316-320), shown for one runtime argument: the plain unwrapped call
value(arg), typed as the underlying call is. -/
def cwCallRuntime {β γ : Type} {f : β → γ} (c : constexpr_wrapper (β → γ) f)
    (r : β) : γ := c.value r

/-- operator() with a compile-time first argument and a runtime second
argument (lines 316-320): the wrapper argument is forwarded to the underlying
callable, reaching it through the implicit conversion to its value type. -/
def cwCallMixed {β δ γ : Type} {f : β → δ → γ} {y : β}
    (c : constexpr_wrapper (β → δ → γ) f) (a : constexpr_wrapper β y) (r : δ) : γ :=
  c.value a.toValueType r

/-- zero-argument operator() on a wrapper whose stored value is not invocable
with zero arguments (lines 322-325): returns the unwrapped stored value
itself, typed as the value type. -/
def cwCallZeroFallback {α : Type} {x : α} (c : constexpr_wrapper α x) : α := c.value

/-- operator[] for a compile-time argument (lines 329-332 / 340-343): wraps
value[arg.value]. -/
def cwSubscriptCV {ι γ : Type} {v : CppIndexable ι γ} {i : ι}
    (_ : constexpr_wrapper (CppIndexable ι γ) v) (_ : constexpr_wrapper ι i) :
    constexpr_wrapper γ (v.elem i) := ⟨⟩

/-- operator[] for a runtime argument (lines 334-338 / 345-349): the plain
unwrapped subscript value[arg]. -/
def cwSubscriptRuntime {ι γ : Type} {v : CppIndexable ι γ}
    (c : constexpr_wrapper (CppIndexable ι γ) v) (r : ι) : γ := c.value.elem r

/-- A wrapped value combined with a runtime right operand by a binary
operator: the friend overload is not viable (the right operand is not a
compile-time value), so the expression applies the native operation to the
implicitly converted left operand and the runtime value; op is the native
operation of the built-in or underlying operator. -/
def cwMixedBinopL {α δ ε : Type} (op : α → δ → ε) {x : α}
    (c : constexpr_wrapper α x) (r : δ) : ε := op c.toValueType r

/-- A runtime left operand combined with a wrapped right operand. -/
def cwMixedBinopR {α δ ε : Type} (op : δ → α → ε) {x : α}
    (l : δ) (c : constexpr_wrapper α x) : ε := op l c.toValueType

/-! ## Member access (operator->)

Variant B (constexpr_wrapper.hpp lines 82-89) returns the stored value's own
operator->() result when the value provides one, and otherwise the address of
the stored value.  Variant A (constexpr_t.hpp lines 72-82) has no address-of
fallback: its return type decltype on the stored value's operator->() makes
the member instantiable only for values providing operator->().

ArrowProvider models a class type providing operator->() (for example a smart
pointer); its field is the pointer that operator returns. -/

/-- A C++ class type providing operator->(), modelled by the object its
arrow operator reaches. -/
structure ArrowProvider (σ : Type) : Type where
  target : σ

/-- The operator->() the value itself provides. -/
def ArrowProvider.arrowOp {σ : Type} (s : ArrowProvider σ) : CppPtr σ := ⟨s.target⟩

/-- Variant B operator-> on a value providing operator->() (the first branch
of the if constexpr at constexpr_wrapper.hpp lines 85-86). -/
def cwArrowProvider {σ : Type} {s : ArrowProvider σ}
    (_ : constexpr_wrapper (ArrowProvider σ) s) : CppPtr σ := s.arrowOp

/-- Variant B operator-> on a value without operator->() (the else branch,
constexpr_wrapper.hpp lines 87-88): the address of the stored value. -/
def cwArrowPlain {α : Type} {x : α} (_ : constexpr_wrapper α x) : CppPtr α :=
  cppAddressof x

/-- Variant A operator-> (constexpr_t.hpp lines 78-81): forwards the stored
value's own operator->(); there is no other branch. -/
def ct_arrow {σ : Type} {s : ArrowProvider σ}
    (_ : constexpr_t (ArrowProvider σ) s) : CppPtr σ := s.arrowOp

/-- Whether variant A's operator-> member template instantiates, as a function
of whether the stored value provides operator->(): its return type is
decltype of value.operator->() (constexpr_t.hpp line 79), well-formed exactly
when the value provides that operator. -/
def ct_arrow_viable (providesArrowOp : Bool) : Bool := providesArrowOp

/-- Whether variant B's operator-> instantiates: both branches of its
if constexpr (constexpr_wrapper.hpp lines 85-88) are well-formed, so it does
for every stored value. -/
def cw_arrow_viable (_providesArrowOp : Bool) : Bool := true

/-- Member access through a pointer: p -> m is the member m of the pointee. -/
def memberThrough {σ μ : Type} (p : CppPtr σ) (m : σ → μ) : μ := m p.deref

/-! ## Overload-candidate model (ambiguity avoidance)

The concepts of constexpr_wrapper.hpp lines 24-49 (constexpr_value,
the exposition-only any-wrapper test, and the left-hand-side concept guarding
every binary friend) are embedded over a small model of C++ operand types:
a type is the wrapper instantiation for a value, a type derived from such an
instantiation (distinguished by a tag), a non-wrapper type exposing a static
value member, or a plain type.  The friend operators of a wrapper base are
found through argument-dependent lookup exactly when one of the operands is
derived from that base; viability adds the constraints of the declaration. -/

inductive CxxType (V : Type) : Type where
  | wrapper (v : V)
  | derivedWrapper (tag : Nat) (v : V)
  | valueCarrier (v : V)
  | plain

/-- The concept constexpr_value with unconstrained target type
(constexpr_wrapper.hpp lines 24-29): the type exposes a static value member
admissible as a wrapper template argument. -/
def CxxType.isConstexprValue {V : Type} : CxxType V → Bool
  | .wrapper _ => true
  | .derivedWrapper _ _ => true
  | .valueCarrier _ => true
  | .plain => false

/-- The exposition-only any-wrapper concept (lines 36-37): derived from the
wrapper instantiation of its own value (which includes the instantiation
itself). -/
def CxxType.isAnyConstexprWrapper {V : Type} : CxxType V → Bool
  | .wrapper _ => true
  | .derivedWrapper _ _ => true
  | _ => false

/-- derived_from of an operand type and the wrapper instantiation for the
value w. -/
def CxxType.derivedFromWrapper {V : Type} [DecidableEq V] : CxxType V → V → Bool
  | .wrapper v, w => v = w
  | .derivedWrapper _ v, w => v = w
  | _, _ => false

/-- The concept at constexpr_wrapper.hpp lines 46-48 guarding the left
operand of every binary friend of the wrapper instantiation for w. -/
def CxxType.lhsConstexprWrapper {V : Type} [DecidableEq V]
    (t : CxxType V) (w : V) : Bool :=
  t.isConstexprValue && (t.derivedFromWrapper w || !t.isAnyConstexprWrapper)

/-- The wrapper base a type is derived from, if any: the friend operators of
that base are visible to argument-dependent lookup through this type. -/
def CxxType.wrapperBase {V : Type} : CxxType V → Option V
  | .wrapper v => some v
  | .derivedWrapper _ v => some v
  | _ => none

/-- The distinct wrapper bases contributing a friend operator candidate for an
ordered operand pair: each base reachable from either operand contributes its
single friend template once. -/
def candidateBases {V : Type} [DecidableEq V] (a b : CxxType V) : List V :=
  match a.wrapperBase, b.wrapperBase with
  | some x, some y => if x = y then [x] else [x, y]
  | some x, none => [x]
  | none, some y => [y]
  | none, none => []

/-- Viability of the friend operator of the wrapper base w at the ordered
operand pair (a, b): the declaration constrains the left operand by the
left-hand-side concept for w and the right operand by constexpr_value
(constexpr_wrapper.hpp lines 141-143 and all following friends). -/
def friendViable {V : Type} [DecidableEq V] (a b : CxxType V) (w : V) : Bool :=
  a.lhsConstexprWrapper w && b.isConstexprValue

/-- The viable friend candidates for an ordered operand pair, one entry per
wrapper base whose friend operator is viable. -/
def viableOverloads {V : Type} [DecidableEq V] (a b : CxxType V) : List V :=
  (candidateBases a b).filter (friendViable a b)

/-! ## Literal front end (constexpr_wrapper.hpp lines 360-473)

The user-defined-literal operators hand the character pack of the literal to
the parser.  For a hexadecimal literal the final c of the cw suffix is itself
a hexadecimal digit, so the pp-number decomposition leaves it inside the
literal part and the operator suffixed w (lines 455-462, which requires the
pack to end in c) receives the pack with that trailing c; the parser
compensates by stopping one character early for base 16.  Separators, base
detection, the character-validity check, the three special-cased spellings,
the accumulation loop with its zero overflow sentinel, and the
smallest-fitting-type ladder are translated statement by statement from
the source; each static_assert becomes an error result. -/

/-- The two build-time diagnostics of the parser (constexpr_wrapper.hpp lines
394 and 427). -/
inductive CwError : Type where
  | invalidChars
  | outOfRange
deriving DecidableEq

/-- The ladder of result types of the parser (lines 428-439), with the widths
of the x86-64 Linux data model the header targets. -/
inductive CxxIntType : Type where
  | schar
  | sshort
  | sint
  | slong
  | slonglong
  | ulonglong
deriving DecidableEq

/-- A parsed literal: the chosen integer type and the (always nonnegative)
value, which the source obtains by casting the accumulated unsigned long long
into the chosen type without change of value. -/
structure CwResult : Type where
  ty : CxxIntType
  val : Nat
deriving DecidableEq

def scharMax : Nat := 127

def sshortMax : Nat := 32767

def sintMax : Nat := 2147483647

def slongMax : Nat := 9223372036854775807

def slonglongMax : Nat := 9223372036854775807

def ullMax : Nat := 18446744073709551615

/-- The digit separator character (an apostrophe). -/
def digitSep : Char := Char.ofNat 39

/-- cw_prepare_array (lines 363-374): drop the digit separators, keeping the
other characters in order. -/
def cwPrepareArray (chars : List Char) : List Char :=
  chars.filter (fun c => c ≠ digitSep)

/-- Base detection (lines 381-384): a leading zero with more than two
characters selects hexadecimal after x or X, binary after b, octal otherwise;
everything else is decimal. -/
def cwBase (arr : List Char) : Nat :=
  if arr.headD ' ' = '0' ∧ 2 < arr.length then
    if arr.getD 1 ' ' = 'x' ∨ arr.getD 1 ' ' = 'X' then 16
    else if arr.getD 1 ' ' = 'b' then 2
    else 8
  else 10

/-- The number of prefix characters to skip (line 385). -/
def cwOffset (base : Nat) : Nat :=
  if base = 10 then 0 else if base = 8 then 1 else 2

/-- The digit characters the parser examines: from the offset up to the end
iterator, which stops one character early for base 16 (line 386, compensating
for the trailing c of the suffix, see the section comment). -/
def cwDigits (arr : List Char) : List Char :=
  let d := arr.drop (cwOffset (cwBase arr))
  if cwBase arr = 16 then d.dropLast else d

/-- Validity of one digit character for the detected base (lines 387-393). -/
def cwValidChar (base : Nat) (c : Char) : Bool :=
  if base = 16 then
    (97 ≤ c.toNat ∧ c.toNat ≤ 102) ∨ (65 ≤ c.toNat ∧ c.toNat ≤ 70)
      ∨ (48 ≤ c.toNat ∧ c.toNat ≤ 57)
  else
    48 ≤ c.toNat ∧ c.toNat < 48 + base

/-- The numeric value of one digit character (lines 410-417): the character
minus the character zero, adjusted for hexadecimal letters. -/
def cwNextDigit (base : Nat) (c : Char) : Nat :=
  if base = 16 ∧ 97 ≤ c.toNat then c.toNat - 97 + 10
  else if base = 16 ∧ 65 ≤ c.toNat then c.toNat - 65 + 10
  else c.toNat - 48

/-- The accumulation loop (lines 404-426): horner accumulation of the digit
values, returning zero as a sentinel as soon as the next step would exceed
the unsigned long long maximum. -/
def cwParseLoop (base : Nat) : List Char → Nat → Nat
  | [], x => x
  | c :: cs, x =>
    let nd := cwNextDigit base c
    if ullMax / base < x then 0
    else
      let x1 := x * base
      if ullMax - nd < x1 then 0
      else cwParseLoop base cs (x1 + nd)

/-- The smallest-fitting-type ladder (lines 428-439), translated condition by
condition; the signed long long branch is unreachable on the 64-bit data
model because its bound equals the signed long bound. -/
def cwLadder (x : Nat) : CwResult :=
  if x ≤ scharMax then ⟨.schar, x⟩
  else if x ≤ sshortMax then ⟨.sshort, x⟩
  else if x ≤ sintMax then ⟨.sint, x⟩
  else if x ≤ slongMax then ⟨.slong, x⟩
  else if x ≤ slonglongMax then ⟨.slonglong, x⟩
  else ⟨.ulonglong, x⟩

/-- cw_parse (lines 376-440), translated statement by statement in control
flow order: strip separators, detect the base, check character validity
(static_assert at line 394), special-case the spellings 0, 1 and 2 (lines
396-402), run the accumulation loop, reject the sentinel zero (static_assert
at line 427), and choose the smallest fitting type. -/
def cwParse (chars : List Char) : Except CwError CwResult :=
  let arr := cwPrepareArray chars
  let base := cwBase arr
  if ¬ (cwDigits arr).all (cwValidChar base) then .error .invalidChars
  else if arr = ['0'] then .ok ⟨.schar, 0⟩
  else if arr = ['1'] then .ok ⟨.schar, 1⟩
  else if arr = ['2'] then .ok ⟨.schar, 2⟩
  else
    let x := cwParseLoop base (cwDigits arr) 0
    if x = 0 then .error .outOfRange
    else .ok (cwLadder x)

/-- Whether a literal spelling is hexadecimal (leading 0x or 0X). -/
def isHexSpelling : List Char → Bool
  | c0 :: c1 :: _ => c0 = '0' ∧ (c1 = 'x' ∨ c1 = 'X')
  | _ => false

/-- The literal front end for a user-written spelling followed by the cw
suffix (literal operators at lines 443-473): for a hexadecimal spelling the
pp-number decomposition moves the c of the suffix into the character pack
(it is a hexadecimal digit), so the parser receives the spelling with a
trailing c and the operator suffixed w fires; otherwise the operator suffixed
cw receives the spelling unchanged. -/
def cwLiteral (s : List Char) : Except CwError CwResult :=
  if isHexSpelling s then cwParse (s ++ ['c']) else cwParse s

/-- The mathematical value of a digit string in a base: Horner evaluation of
the digit values.  This is the specification-side reading of the digit
sequence, used to state the overflow and zero-value claims. -/
def cwMathVal (base : Nat) (digits : List Char) : Nat :=
  digits.foldl (fun a c => a * base + cwNextDigit base c) 0

/-- Specification-side ladder, written from the specification words: the
smallest type of the fixed width ladder whose maximum is at least the value. -/
def specSmallestFit (v : Nat) : CxxIntType :=
  if v ≤ 127 then .schar
  else if v ≤ 32767 then .sshort
  else if v ≤ 2147483647 then .sint
  else if v ≤ 9223372036854775807 then .slong
  else .ulonglong

/-! ## Template-id identity model

A C++ template-id denotes the same type as another exactly when the template
arguments are equivalent.  For variant A the argument list of constexpr_t is
the value X together with its deduced type; for variant B it is the value X
together with the explicit second parameter T.  The identities are modelled
as dependent pairs. -/

/-- The identity of the template-id constexpr_t of X (variant A): the deduced
value type together with the value. -/
def CtId : Type 1 := Σ α : Type, α

/-- The template-id identity of a variant A wrapper type. -/
def ctId (α : Type) (x : α) : CtId := ⟨α, x⟩

/-- The identity of the template-id constexpr_wrapper of X and T (variant B):
the value (with its type) together with the explicit value type parameter. -/
def CwId : Type 1 := (Σ α : Type, α) × Type

/-- The template-id identity of a variant B wrapper type. -/
def cwId (α : Type) (x : α) (t : Type) : CwId := (⟨α, x⟩, t)

/-! ## Claim theorems -/

/-- C1, counterexample.  The claim includes the three-way comparison in the
set of operators whose application to wrapped operands yields a wrapped
result.  For scalar operands this fails: the native result type
std::strong_ordering is not structural, so the friend overload cannot form
its return type and drops out, and the expression wrappedInt1 <=> wrappedInt2
instead evaluates to the plain built-in comparison of the converted operands
(an unwrapped Ordering value, here at the concrete operands 1 and 2). -/
theorem claim_C1_counterexample :
    cwSpaceshipScalarViable = false ∧
      cwSpaceshipScalarFallback (cw (1 : Int)) (cw 2) = Ordering.lt := ⟨rfl, rfl⟩

/-- C1 (amended): for every unary operator and every binary operator of the
supported set other than the three-way comparison, applied to wrapped
operands on which the native operation is well defined, the result is the
wrapper of the native result: its underlying value (both the static value
member and the implicit conversion give the template argument) is the native
result, and it is the canonical wrapper instance of that result, so its type
is the wrapper type of the native result.  For the three-way comparison on
scalar operands the friend drops out (the result type std::strong_ordering is
not structural) and the expression yields the plain unwrapped built-in
comparison of the converted operands. -/
theorem claim_C1_operator_closure
    {α β γ₁ γ₂ γ₃ γ₄ γ₅ γ₆ γ₇ γ₈ γ₉ γ₀ : Type}
    [Neg α] [Complement α]
    [HAdd α β γ₁] [HSub α β γ₂] [HMul α β γ₃] [HDiv α β γ₄] [HMod α β γ₅]
    [HAnd α β γ₆] [HOr α β γ₇] [HXor α β γ₈] [HShiftLeft α β γ₉]
    [HShiftRight α β γ₀]
    (x : α) (y : β) (p q : Bool)
    {δ : Type} [BEq δ] [LT δ] [LE δ]
    [DecidableRel (α := δ) (· < ·)] [DecidableRel (α := δ) (· ≤ ·)]
    (u v : δ)
    {σ μ : Type} (s : σ) (pt : CppPtr σ) (m : σ → μ)
    {π ρ : Type} (mv : MutOps π ρ) (w : π)
    (xi yi : Int) :
    ((cwPos (cw x)).toValueType = cppUnaryPlus x ∧ cwPos (cw x) = cw (cppUnaryPlus x)) ∧
    ((cwNeg (cw x)).toValueType = -x ∧ cwNeg (cw x) = cw (-x)) ∧
    ((cwCompl (cw x)).toValueType = ~~~x ∧ cwCompl (cw x) = cw (~~~x)) ∧
    ((cwLnot (cw p)).toValueType = !p ∧ cwLnot (cw p) = cw (!p)) ∧
    ((cwAddrOf (cw s)).toValueType = cppAddressof s ∧ cwAddrOf (cw s) = cw (cppAddressof s)) ∧
    ((cwDeref (cw pt)).toValueType = cppDeref pt ∧ cwDeref (cw pt) = cw (cppDeref pt)) ∧
    ((cwPreInc (cw mv)).toValueType = mv.preInc ∧ cwPreInc (cw mv) = cw mv.preInc) ∧
    ((cwPostInc (cw mv)).toValueType = mv.postInc ∧ cwPostInc (cw mv) = cw mv.postInc) ∧
    ((cwPreDec (cw mv)).toValueType = mv.preDec ∧ cwPreDec (cw mv) = cw mv.preDec) ∧
    ((cwPostDec (cw mv)).toValueType = mv.postDec ∧ cwPostDec (cw mv) = cw mv.postDec) ∧
    ((cwAdd (cw x) (cw y)).toValueType = x + y ∧ cwAdd (cw x) (cw y) = cw (x + y)) ∧
    ((cwSub (cw x) (cw y)).toValueType = x - y ∧ cwSub (cw x) (cw y) = cw (x - y)) ∧
    ((cwMul (cw x) (cw y)).toValueType = x * y ∧ cwMul (cw x) (cw y) = cw (x * y)) ∧
    ((cwDiv (cw x) (cw y)).toValueType = x / y ∧ cwDiv (cw x) (cw y) = cw (x / y)) ∧
    ((cwMod (cw x) (cw y)).toValueType = x % y ∧ cwMod (cw x) (cw y) = cw (x % y)) ∧
    ((cwBand (cw x) (cw y)).toValueType = x &&& y ∧ cwBand (cw x) (cw y) = cw (x &&& y)) ∧
    ((cwBor (cw x) (cw y)).toValueType = x ||| y ∧ cwBor (cw x) (cw y) = cw (x ||| y)) ∧
    ((cwBxor (cw x) (cw y)).toValueType = x ^^^ y ∧ cwBxor (cw x) (cw y) = cw (x ^^^ y)) ∧
    ((cwLand (cw p) (cw q)).toValueType = (p && q) ∧ cwLand (cw p) (cw q) = cw (p && q)) ∧
    ((cwLor (cw p) (cw q)).toValueType = (p || q) ∧ cwLor (cw p) (cw q) = cw (p || q)) ∧
    ((cwComma (cw x) (cw y)).toValueType = cppComma x y ∧ cwComma (cw x) (cw y) = cw (cppComma x y)) ∧
    ((cwShl (cw x) (cw y)).toValueType = x <<< y ∧ cwShl (cw x) (cw y) = cw (x <<< y)) ∧
    ((cwShr (cw x) (cw y)).toValueType = x >>> y ∧ cwShr (cw x) (cw y) = cw (x >>> y)) ∧
    ((cwEq (cw u) (cw v)).toValueType = (u == v) ∧ cwEq (cw u) (cw v) = cw (u == v)) ∧
    ((cwNe (cw u) (cw v)).toValueType = (u != v) ∧ cwNe (cw u) (cw v) = cw (u != v)) ∧
    ((cwLt (cw u) (cw v)).toValueType = decide (u < v) ∧ cwLt (cw u) (cw v) = cw (decide (u < v))) ∧
    ((cwLe (cw u) (cw v)).toValueType = decide (u ≤ v) ∧ cwLe (cw u) (cw v) = cw (decide (u ≤ v))) ∧
    ((cwGt (cw u) (cw v)).toValueType = decide (v < u) ∧ cwGt (cw u) (cw v) = cw (decide (v < u))) ∧
    ((cwGe (cw u) (cw v)).toValueType = decide (v ≤ u) ∧ cwGe (cw u) (cw v) = cw (decide (v ≤ u))) ∧
    ((cwArrowStar (cw pt) (cw m)).toValueType = cppArrowStar pt m ∧
      cwArrowStar (cw pt) (cw m) = cw (cppArrowStar pt m)) ∧
    ((cwAddAssign (cw mv) (cw w)).toValueType = mv.addAssign w ∧
      cwAddAssign (cw mv) (cw w) = cw (mv.addAssign w)) ∧
    ((cwSubAssign (cw mv) (cw w)).toValueType = mv.subAssign w ∧
      cwSubAssign (cw mv) (cw w) = cw (mv.subAssign w)) ∧
    ((cwMulAssign (cw mv) (cw w)).toValueType = mv.mulAssign w ∧
      cwMulAssign (cw mv) (cw w) = cw (mv.mulAssign w)) ∧
    ((cwDivAssign (cw mv) (cw w)).toValueType = mv.divAssign w ∧
      cwDivAssign (cw mv) (cw w) = cw (mv.divAssign w)) ∧
    ((cwModAssign (cw mv) (cw w)).toValueType = mv.modAssign w ∧
      cwModAssign (cw mv) (cw w) = cw (mv.modAssign w)) ∧
    ((cwAndAssign (cw mv) (cw w)).toValueType = mv.andAssign w ∧
      cwAndAssign (cw mv) (cw w) = cw (mv.andAssign w)) ∧
    ((cwOrAssign (cw mv) (cw w)).toValueType = mv.orAssign w ∧
      cwOrAssign (cw mv) (cw w) = cw (mv.orAssign w)) ∧
    ((cwXorAssign (cw mv) (cw w)).toValueType = mv.xorAssign w ∧
      cwXorAssign (cw mv) (cw w) = cw (mv.xorAssign w)) ∧
    ((cwShlAssign (cw mv) (cw w)).toValueType = mv.shlAssign w ∧
      cwShlAssign (cw mv) (cw w) = cw (mv.shlAssign w)) ∧
    ((cwShrAssign (cw mv) (cw w)).toValueType = mv.shrAssign w ∧
      cwShrAssign (cw mv) (cw w) = cw (mv.shrAssign w)) ∧
    cwSpaceshipScalarFallback (cw xi) (cw yi) = compare xi yi := by
  repeat' apply And.intro
  all_goals rfl

/-- C2: for every ordered pair of operand types in which at least one operand
is derived from a wrapper instantiation and both satisfy the capability
predicate, exactly one friend-operator candidate is viable; in particular when
both operands are wrapper-derived with different wrapper bases, only the left
operand's overload matches. -/
theorem claim_C2_unique_viable_overload {V : Type} [DecidableEq V] (a b : CxxType V)
    (ha : a.isConstexprValue = true) (hb : b.isConstexprValue = true)
    (hw : a.isAnyConstexprWrapper = true ∨ b.isAnyConstexprWrapper = true) :
    (viableOverloads a b).length = 1 ∧
      (∀ va vb, a.wrapperBase = some va → b.wrapperBase = some vb → va ≠ vb →
        viableOverloads a b = [va]) := by
  constructor
  · cases a <;> cases b <;>
      simp_all [viableOverloads, candidateBases, friendViable,
        CxxType.lhsConstexprWrapper, CxxType.isConstexprValue,
        CxxType.isAnyConstexprWrapper, CxxType.derivedFromWrapper,
        CxxType.wrapperBase, List.filter] <;>
      split_ifs <;>
      simp_all [friendViable, CxxType.lhsConstexprWrapper, CxxType.isConstexprValue,
        CxxType.isAnyConstexprWrapper, CxxType.derivedFromWrapper, List.filter]
  · intro va vb hva hvb hne
    cases a <;> cases b <;>
      simp_all [viableOverloads, candidateBases, friendViable,
        CxxType.lhsConstexprWrapper, CxxType.isConstexprValue,
        CxxType.isAnyConstexprWrapper, CxxType.derivedFromWrapper,
        CxxType.wrapperBase, List.filter]

/-- C2, witness: two derived wrapper types over the distinct bases 5 and 7;
exactly one candidate is viable, namely the left operand's. -/
theorem claim_C2_witness :
    (viableOverloads (CxxType.derivedWrapper 0 (5 : Nat)) (CxxType.derivedWrapper 1 7)).length = 1 ∧
      viableOverloads (CxxType.derivedWrapper 0 (5 : Nat)) (CxxType.derivedWrapper 1 7) = [5] :=
  ⟨(claim_C2_unique_viable_overload _ _ (by decide) (by decide) (Or.inl (by decide))).1,
   (claim_C2_unique_viable_overload _ _ (by decide) (by decide) (Or.inl (by decide))).2
      5 7 rfl rfl (by decide)⟩

/-- C3: a wrapped value combined with an ordinary runtime operand or argument
degrades to plain runtime semantics.  No friend candidate is viable when the
right operand fails the capability predicate (first conjunct, in the
operand-type model); a binary operator on a wrapped value and a runtime value
applies the native operation to the converted stored value, in either operand
order; a call or subscript with a runtime argument (also mixed among
compile-time arguments) is the plain application of the stored value; in each
case the result type is the plain unwrapped native result type, as the
definitions' result types record. -/
theorem claim_C3_escape_hatch {V : Type} [DecidableEq V] (bv : V)
    {α δ ε : Type} (op : α → δ → ε) (opr : δ → α → ε) (x : α) (r : δ)
    {β γ κ : Type} (f : β → γ) (g : β → δ → κ) (y : β)
    {ι τ : Type} (cont : CppIndexable ι τ) (i : ι) :
    viableOverloads (CxxType.wrapper bv) CxxType.plain = [] ∧
    cwMixedBinopL op (cw x) r = op x r ∧
    cwMixedBinopR opr r (cw x) = opr r x ∧
    cwCallRuntime (cw f) y = f y ∧
    cwCallMixed (cw g) (cw y) r = g y r ∧
    cwSubscriptRuntime (cw cont) i = cont.elem i := by
  repeat' apply And.intro
  · simp [viableOverloads, candidateBases, friendViable, CxxType.isConstexprValue,
      CxxType.wrapperBase, List.filter]
  all_goals rfl

/-- C6: two wrapper template-ids denote the same type exactly when the values
are equal and the declared value type is the same (the explicit second
parameter in variant B; the deduced type in variant A); distinct values give
distinct types even at the same value type, and equal template-ids force
equal value types (and, for variant B, equal declared type parameters). -/
theorem claim_C6_type_identity :
    (∀ (α : Type) (x y : α) (t : Type), cwId α x t = cwId α y t ↔ x = y) ∧
    (∀ (α : Type) (x y : α), ctId α x = ctId α y ↔ x = y) ∧
    (∀ (α : Type) (x y : α), x ≠ y → ctId α x ≠ ctId α y) ∧
    (∀ (α β : Type) (x : α) (y : β), ctId α x = ctId β y → α = β) ∧
    (∀ (α β : Type) (x : α) (y : β) (t u : Type), cwId α x t = cwId β y u → α = β ∧ t = u) := by
  refine ⟨?_, ?_, ?_, ?_, ?_⟩
  · intro α x y t
    constructor
    · intro h
      have h1 : (⟨α, x⟩ : Σ α : Type, α) = ⟨α, y⟩ := congrArg Prod.fst h
      injection h1
    · intro h
      subst h
      rfl
  · intro α x y
    constructor
    · intro h
      have h1 : (⟨α, x⟩ : Σ α : Type, α) = ⟨α, y⟩ := h
      injection h1
    · intro h
      subst h
      rfl
  · intro α x y hne h
    have h1 : (⟨α, x⟩ : Σ α : Type, α) = ⟨α, y⟩ := h
    exact hne (by injection h1)
  · intro α β x y h
    have h1 : (⟨α, x⟩ : Σ α : Type, α) = ⟨β, y⟩ := h
    injection h1
  · intro α β x y t u h
    have h1 : (⟨α, x⟩ : Σ α : Type, α) = ⟨β, y⟩ := congrArg Prod.fst h
    exact ⟨by injection h1, congrArg Prod.snd h⟩

/-- C6, witness: at the concrete values 1 and 2 over Nat, the wrapper
template-ids of 1 and 1 agree and those of 1 and 2 differ. -/
theorem claim_C6_witness :
    (cwId Nat 1 Nat = cwId Nat 1 Nat ↔ (1 : Nat) = 1) ∧ ctId Nat 1 ≠ ctId Nat 2 :=
  ⟨claim_C6_type_identity.1 Nat 1 1 Nat,
   claim_C6_type_identity.2.2.1 Nat 1 2 (by decide)⟩

/-- C7, counterexample.  The claim asserts that in both variants the member
access operator falls back to the address of the stored value when the value
does not provide its own arrow operator.  Variant A has no such fallback: its
operator template's return type is decltype of the stored value's arrow
operator (constexpr_t.hpp lines 78-81), so for a stored value without an
arrow operator (the concrete input false to the viability function) the
member does not instantiate at all, while variant B does. -/
theorem claim_C7_counterexample :
    ct_arrow_viable false = false ∧ cw_arrow_viable false = true := ⟨rfl, rfl⟩

/-- C7 (amended): variant B's member access operator returns the stored
value's own arrow-operator result when the value provides one and otherwise
the address of the stored value, so member access through the wrapper reaches
the same member as through the value; variant A only forwards the stored
value's own arrow operator and has no address-of fallback (it instantiates
exactly for values providing one). -/
theorem claim_C7_member_access :
    (∀ (σ μ : Type) (s : ArrowProvider σ) (m : σ → μ),
      memberThrough (cwArrowProvider (cw s)) m = memberThrough s.arrowOp m) ∧
    (∀ (α μ : Type) (x : α) (m : α → μ),
      memberThrough (cwArrowPlain (cw x)) m = m x) ∧
    (∀ (σ μ : Type) (s : ArrowProvider σ) (m : σ → μ),
      memberThrough (ct_arrow (cc s)) m = memberThrough s.arrowOp m) ∧
    (∀ b, cw_arrow_viable b = true) ∧
    ct_arrow_viable true = true := by
  repeat' apply And.intro
  all_goals intros
  all_goals rfl

/-- C8: a call or subscript whose arguments all satisfy the capability
predicate yields the wrapped compile-time result (the wrapper instance of the
stored value applied to, or indexed by, the argument values), and a
zero-argument call on a wrapper whose stored value is not invocable with zero
arguments returns the unwrapped stored value itself. -/
theorem claim_C8_call_subscript {β γ : Type} (f : β → γ) (y : β)
    {ι τ : Type} (cont : CppIndexable ι τ) (i : ι) {α : Type} (x : α) :
    ((cwCallCV (cw f) (cw y)).toValueType = f y ∧ cwCallCV (cw f) (cw y) = cw (f y)) ∧
    ((cwSubscriptCV (cw cont) (cw i)).toValueType = cont.elem i ∧
      cwSubscriptCV (cw cont) (cw i) = cw (cont.elem i)) ∧
    cwCallZeroFallback (cw x) = x := by
  repeat' apply And.intro
  all_goals rfl

/-- C9: implicitly converting a wrapped compile-time value to its underlying
value type recovers exactly the wrapped value, in both variants. -/
theorem claim_C9_round_trip {α : Type} (x : α) :
    (cw x).toValueType = x ∧ (cc x).toValueType = x := ⟨rfl, rfl⟩

/-! ## Helper lemmas for the literal parser -/

theorem cwBase_pos (arr : List Char) : 1 ≤ cwBase arr := by
  unfold cwBase
  split_ifs <;> norm_num

theorem cwBase_le (arr : List Char) : cwBase arr ≤ 16 := by
  unfold cwBase
  split_ifs <;> norm_num

theorem cwNextDigit_le_of_valid (base : Nat) (c : Char) (hb : base ≤ 16)
    (h : cwValidChar base c = true) : cwNextDigit base c ≤ ullMax := by
  unfold cwValidChar at h
  unfold cwNextDigit ullMax
  split_ifs at h ⊢ <;> simp_all <;> omega

theorem cwFold_ge_seed (base : Nat) (hb : 1 ≤ base) :
    ∀ (cs : List Char) (x : Nat),
      x ≤ cs.foldl (fun a c => a * base + cwNextDigit base c) x
  | [], x => Nat.le_refl x
  | c :: cs, x => by
    have h1 : x ≤ x * base + cwNextDigit base c := by
      calc x = x * 1 := (Nat.mul_one x).symm
        _ ≤ x * base := Nat.mul_le_mul_left x hb
        _ ≤ x * base + cwNextDigit base c := Nat.le_add_right _ _
    exact Nat.le_trans h1 (cwFold_ge_seed base hb cs (x * base + cwNextDigit base c))

theorem cwParseLoop_overflow_sentinel (base : Nat) (hb : 1 ≤ base) :
    ∀ (cs : List Char) (x : Nat), x ≤ ullMax →
      (∀ c ∈ cs, cwNextDigit base c ≤ ullMax) →
      ullMax < cs.foldl (fun a c => a * base + cwNextDigit base c) x →
      cwParseLoop base cs x = 0
  | [], x, hx, _, hover => absurd hover (Nat.not_lt.mpr hx)
  | c :: cs, x, hx, hnd, hover => by
    unfold cwParseLoop
    by_cases h1 : ullMax / base < x
    · simp [h1]
    · have hx1 : x * base ≤ ullMax := by
        have := Nat.not_lt.mp h1
        exact (Nat.le_div_iff_mul_le (Nat.lt_of_lt_of_le Nat.zero_lt_one hb)).mp this
      by_cases h2 : ullMax - cwNextDigit base c < x * base
      · simp [h1, h2]
      · have hnd0 : cwNextDigit base c ≤ ullMax := hnd c (List.mem_cons_self c cs)
        have hx2 : x * base + cwNextDigit base c ≤ ullMax := by
          have := Nat.not_lt.mp h2
          omega
        simp only [h1, h2, if_false]
        exact cwParseLoop_overflow_sentinel base hb cs (x * base + cwNextDigit base c) hx2
          (fun d hd => hnd d (List.mem_cons_of_mem c hd)) hover

theorem cwParseLoop_zero_digits (base : Nat) (hb : 1 ≤ base) :
    ∀ cs : List Char,
      cs.foldl (fun a c => a * base + cwNextDigit base c) 0 = 0 →
      cwParseLoop base cs 0 = 0
  | [], _ => rfl
  | c :: cs, h => by
    have hfold : cs.foldl (fun a c => a * base + cwNextDigit base c)
        (0 * base + cwNextDigit base c) = 0 := h
    have hnd : cwNextDigit base c = 0 := by
      have := cwFold_ge_seed base hb cs (0 * base + cwNextDigit base c)
      omega
    unfold cwParseLoop
    rw [if_neg (Nat.not_lt.mpr (Nat.zero_le _))]
    simp only [Nat.zero_mul, hnd, Nat.add_zero, Nat.sub_zero]
    rw [if_neg (Nat.not_lt.mpr (Nat.zero_le _))]
    exact cwParseLoop_zero_digits base hb cs (by simpa [hnd] using hfold)

/-- C4: the literal front end parses a digit sequence (with optional base
prefix, separators stripped) into the smallest fitting signed integer type of
the fixed width ladder: the spelling 0 gives an 8-bit signed zero, 127 an
8-bit signed 127, 128 promotes to the 16-bit signed width, 0xFFFF gives 65535
in the smallest fitting type (32-bit signed), a spelling of 2 billion with
separators has them stripped and parses as 2000000000; and in general every
successful parse returns the smallest type of the ladder that holds the
value. -/
theorem claim_C4_literal_scenarios :
    cwLiteral ['0'] = .ok ⟨.schar, 0⟩ ∧
    cwLiteral ['1', '2', '7'] = .ok ⟨.schar, 127⟩ ∧
    cwLiteral ['1', '2', '8'] = .ok ⟨.sshort, 128⟩ ∧
    cwLiteral ['0', 'x', 'F', 'F', 'F', 'F'] = .ok ⟨.sint, 65535⟩ ∧
    cwLiteral ['2', digitSep, '0', '0', '0', digitSep, '0', '0', '0', digitSep, '0', '0', '0']
      = .ok ⟨.sint, 2000000000⟩ ∧
    (∀ (s : List Char) (ty : CxxIntType) (v : Nat),
      cwParse s = .ok ⟨ty, v⟩ → ty = specSmallestFit v) := by
  refine ⟨rfl, rfl, rfl, rfl, rfl, ?_⟩
  intro s ty v h
  simp only [cwParse] at h
  split_ifs at h with hv h0 h1 h2 hz
  · obtain ⟨rfl, rfl⟩ := And.symm (by simpa [CwResult.mk.injEq] using h)
    rfl
  · obtain ⟨rfl, rfl⟩ := And.symm (by simpa [CwResult.mk.injEq] using h)
    rfl
  · obtain ⟨rfl, rfl⟩ := And.symm (by simpa [CwResult.mk.injEq] using h)
    rfl
  · generalize hg : cwParseLoop (cwBase (cwPrepareArray s)) (cwDigits (cwPrepareArray s)) 0 = x at h hz
    unfold cwLadder at h
    split_ifs at h with ha hb hc hd he <;>
      obtain ⟨rfl, rfl⟩ := And.symm (by simpa [CwResult.mk.injEq] using h) <;>
      simp only [specSmallestFit, scharMax, sshortMax, sintMax, slongMax, slonglongMax] at * <;>
      split_ifs <;> first | rfl | omega

/-- C4, witness for the smallest-fitting-type conjunct: the parse of 128
succeeds with value 128 and the 16-bit signed type, which is the smallest
fitting type. -/
theorem claim_C4_witness : CxxIntType.sshort = specSmallestFit 128 :=
  claim_C4_literal_scenarios.2.2.2.2.2 ['1', '2', '8'] CxxIntType.sshort 128 rfl

/-- C5: a digit invalid for the detected base makes the parser fail with the
invalid-characters diagnostic, and a digit sequence whose mathematical value
exceeds the unsigned-long-long maximum (the largest supported width) makes it
fail with the out-of-range diagnostic; in both cases the result is an error,
never a wrapped or truncated value. -/
theorem claim_C5_build_failures (s : List Char) :
    (∀ c ∈ cwDigits (cwPrepareArray s),
      cwValidChar (cwBase (cwPrepareArray s)) c = false →
        cwParse s = .error .invalidChars) ∧
    ((cwDigits (cwPrepareArray s)).all (cwValidChar (cwBase (cwPrepareArray s))) = true →
      ullMax < cwMathVal (cwBase (cwPrepareArray s)) (cwDigits (cwPrepareArray s)) →
      cwParse s = .error .outOfRange) := by
  constructor
  · intro c hc hcv
    have hall : (cwDigits (cwPrepareArray s)).all (cwValidChar (cwBase (cwPrepareArray s))) = false :=
      List.all_eq_false.mpr ⟨c, hc, by simp [hcv]⟩
    simp [cwParse, hall]
  · intro hvalid hover
    have hb : 1 ≤ cwBase (cwPrepareArray s) := cwBase_pos _
    have h0 : cwPrepareArray s ≠ ['0'] := by
      intro h
      rw [h] at hover
      exact absurd hover (by decide)
    have h1 : cwPrepareArray s ≠ ['1'] := by
      intro h
      rw [h] at hover
      exact absurd hover (by decide)
    have h2 : cwPrepareArray s ≠ ['2'] := by
      intro h
      rw [h] at hover
      exact absurd hover (by decide)
    have hnd : ∀ c ∈ cwDigits (cwPrepareArray s),
        cwNextDigit (cwBase (cwPrepareArray s)) c ≤ ullMax := by
      intro c hc
      exact cwNextDigit_le_of_valid _ c (cwBase_le _)
        (by
          have := List.all_eq_true.mp hvalid c hc
          simpa using this)
    have hx : cwParseLoop (cwBase (cwPrepareArray s)) (cwDigits (cwPrepareArray s)) 0 = 0 :=
      cwParseLoop_overflow_sentinel _ hb _ 0 (Nat.zero_le _) hnd hover
    simp [cwParse, hvalid, h0, h1, h2, hx]

/-- C5, witness: the digit g after the 0x prefix is invalid for base 16 and
the parse fails with the invalid-characters diagnostic; twenty nines exceed
the unsigned-long-long maximum and the parse fails with the out-of-range
diagnostic. -/
theorem claim_C5_witness :
    cwParse ['0', 'x', 'g', 'c'] = .error .invalidChars ∧
      cwParse ['9', '9', '9', '9', '9', '9', '9', '9', '9', '9',
               '9', '9', '9', '9', '9', '9', '9', '9', '9', '9'] = .error .outOfRange :=
  ⟨(claim_C5_build_failures ['0', 'x', 'g', 'c']).1 'g' (by decide) (by decide),
   (claim_C5_build_failures _).2 (by decide) (by decide)⟩

/-- C10: every digit sequence whose separator-stripped spelling is not the
single character 0 but whose digits have mathematical value zero (for example
00, 0x0 and 0b0) is rejected with the out-of-range diagnostic, because after
the special-cased spellings the accumulated value zero is indistinguishable
from the overflow sentinel. -/
theorem claim_C10_zero_spellings (s : List Char)
    (hne : cwPrepareArray s ≠ ['0'])
    (hvalid : (cwDigits (cwPrepareArray s)).all (cwValidChar (cwBase (cwPrepareArray s))) = true)
    (hzero : cwMathVal (cwBase (cwPrepareArray s)) (cwDigits (cwPrepareArray s)) = 0) :
    cwParse s = .error .outOfRange := by
  have hb : 1 ≤ cwBase (cwPrepareArray s) := cwBase_pos _
  have h1 : cwPrepareArray s ≠ ['1'] := by
    intro h
    rw [h] at hzero
    exact absurd hzero (by decide)
  have h2 : cwPrepareArray s ≠ ['2'] := by
    intro h
    rw [h] at hzero
    exact absurd hzero (by decide)
  have hx : cwParseLoop (cwBase (cwPrepareArray s)) (cwDigits (cwPrepareArray s)) 0 = 0 :=
    cwParseLoop_zero_digits _ hb _ hzero
  simp [cwParse, hvalid, hne, h1, h2, hx]

/-- C10, witness: the spellings 00, 0x0 and 0b0 all parse to value zero and
are rejected with the out-of-range diagnostic. -/
theorem claim_C10_witness :
    cwParse ['0', '0'] = .error .outOfRange ∧
      cwParse ['0', 'x', '0'] = .error .outOfRange ∧
      cwParse ['0', 'b', '0'] = .error .outOfRange :=
  ⟨claim_C10_zero_spellings ['0', '0'] (by decide) (by decide) (by decide),
   claim_C10_zero_spellings ['0', 'x', '0'] (by decide) (by decide) (by decide),
   claim_C10_zero_spellings ['0', 'b', '0'] (by decide) (by decide) (by decide)⟩
